import Mathlib

/-!
# Verification of the transport-catalogue persistence codec and map renderer

A shallow embedding of `src/transport-catalogue/serialization.cpp` and
`src/transport-catalogue/map_renderer.h`.  C++ `double` values are modelled
as `ℚ` (the claims under study are structural: presence of fields, control
flow of guards, and exact round trips of values that serialization copies
verbatim).  Protocol-buffer messages are modelled with proto3 presence
semantics: every singular field is an `Option`, and the generated accessor
returns the field's default value when the field is absent (`Option.getD`);
`has_foo` corresponds to `Option.isSome`.  Repeated fields and maps are
lists.
-/

namespace Transport

/-- In-memory route-table entry,
`transport_catalogue::TransportRouter::Router::RouteInternalData`:
a total weight and an optional predecessor edge id. -/
structure RouteInternalData where
  weight : ℚ
  prev_edge : Option Nat
deriving DecidableEq

/-- In-memory route table,
`transport_catalogue::TransportRouter::Router::RoutesInternalData`:
for each ordered vertex pair an optional entry. -/
abbrev RoutesInternalData := List (List (Option RouteInternalData))

/-- Proto message `EdgeId` with scalar field `id`. -/
structure EdgeIdMsg where
  id : Option Nat
deriving DecidableEq

/-- Proto message `RouteData`: scalar `weight`, optional message `prev_edge`. -/
structure RouteDataMsg where
  weight : Option ℚ
  prev_edge : Option EdgeIdMsg
deriving DecidableEq

/-- Proto message `Route`: an optional `RouteData` payload (`has_data`
distinguishes an absent table entry from a present one). -/
structure RouteMsg where
  data : Option RouteDataMsg
deriving DecidableEq

/-- Proto message `RouteList`: one row of the route table. -/
structure RouteListMsg where
  route : List RouteMsg
deriving DecidableEq

/-- Proto message `Router`: the list of rows of the route table. -/
structure RouterMsg where
  route_list : List RouteListMsg
deriving DecidableEq

/-- Default instance of `RouterMsg` (what `object.router()` yields when the
field is unset). -/
def RouterMsg.default : RouterMsg := ⟨[]⟩

/-- Body of the inner loop of
`details::Serialize(const TransportRouter::Router&)`
(serialization.cpp:249-264): one optional entry becomes one `Route` message;
a present entry stores its weight and, only when present, its predecessor
edge id wrapped in an `EdgeId` message. -/
def serializeRoute : Option RouteInternalData → RouteMsg
  | none => ⟨none⟩
  | some route =>
    ⟨some ⟨some route.weight, route.prev_edge.map (fun id => ⟨some id⟩)⟩⟩

/-- `details::Serialize(const TransportRouter::Router&)`
(serialization.cpp:243-268): every row of `GetRoutesRange()` becomes a
`RouteList`, every entry a `Route`. -/
def serializeRouter (router : RoutesInternalData) : RouterMsg :=
  ⟨router.map (fun routes => ⟨routes.map serializeRoute⟩)⟩

/-- Entry-level part of `details::Deserialize(const Router&)`
(serialization.cpp:283-295): an entry is reconstructed only when `has_data`;
its weight is read through the scalar accessor (default 0 when absent) and
its predecessor edge id only when `has_prev_edge`. -/
def deserializeRoute (route : RouteMsg) : Option RouteInternalData :=
  route.data.map (fun route_data =>
    ⟨route_data.weight.getD 0,
     route_data.prev_edge.map (fun edge_id => edge_id.id.getD 0)⟩)

/-- `details::Deserialize(const Router&)` (serialization.cpp:270-300):
`vertex_count` is the number of rows in the message; the result is a
`vertex_count × vertex_count` table initialized to absent entries, with
entry `(from_id, to_id)` filled from the message whenever row `from_id`
has a `to_id`-th `Route` carrying data. -/
def deserializeRouter (object : RouterMsg) : RoutesInternalData :=
  let vertex_count := object.route_list.length
  object.route_list.map (fun route_list =>
    (List.range vertex_count).map (fun to_id =>
      (route_list.route.get? to_id).bind deserializeRoute))

/-- svg::Point (svg.h, not under src; modelled from its use in
map_renderer.h and serialization.cpp: a pair of doubles x, y). -/
structure Point where
  x : ℚ
  y : ℚ
deriving DecidableEq

/-- svg::Rgb: three 8-bit channels. -/
structure Rgb where
  red : Nat
  green : Nat
  blue : Nat
deriving DecidableEq

/-- svg::Rgba: three 8-bit channels plus opacity. -/
structure Rgba where
  red : Nat
  green : Nat
  blue : Nat
  opacity : ℚ
deriving DecidableEq

/-- svg::Color: a variant of a named color, Rgb or Rgba (the branches
`details::Serialize(const svg::Color&)` distinguishes). -/
inductive Color where
  | name (s : String)
  | rgb (c : Rgb)
  | rgba (c : Rgba)
deriving DecidableEq

/-- renderer::RenderSettings (map_renderer.h:17-36), with the in-class
default values. -/
structure RenderSettings where
  width : ℚ := 0
  height : ℚ := 0
  padding : ℚ := 0
  line_width : ℚ := 0
  stop_radius : ℚ := 0
  bus_label_font_size : Int := 0
  bus_label_offset : Point := ⟨0, 0⟩
  stop_label_font_size : Int := 0
  stop_label_offset : Point := ⟨0, 0⟩
  underlayer_color : Color := Color.name ""
  underlayer_width : ℚ := 0
  color_palette : List Color := []
deriving DecidableEq

/-- renderer::MapRenderer: holds its immutable `settings_`. -/
structure MapRenderer where
  settings : RenderSettings
deriving DecidableEq

/-- Modelled from the spec: transport_catalogue.h / domain.h are not under
src.  A stop is a name plus coordinates (§6: ordered stop list with name
and coordinates). -/
structure Stop where
  name : String
  lat : ℚ
  lng : ℚ
deriving DecidableEq

/-- Modelled from the spec: a bus is a name, a round-trip flag and its
ordered stop sequence (§6); stops are referred to by their index in the
catalogue's stop order (standing for the C++ StopPtr). -/
structure Bus where
  name : String
  is_roundtrip : Bool
  stops : List Nat
deriving DecidableEq

/-- Modelled from the spec: the catalogue collaborator owns the ordered
stop list, the directional inter-stop distances (keyed by stop-name pair)
and the bus list (§6).  `AddStop`, `SetDistance` and `AddBus` append in
call order. -/
structure TransportCatalogue where
  stops : List Stop
  distances : List ((String × String) × ℚ)
  buses : List Bus
deriving DecidableEq

/-- Modelled from the spec: routing parameters, wait time and velocity
(§6), as read and written by `details::Serialize(const RoutingSettings&)`. -/
structure RoutingSettings where
  bus_wait_time : ℚ
  bus_velocity : ℚ
deriving DecidableEq

/-- Modelled from the spec: transport_router.h is not under src.  The
in-memory TransportRouter owns the routing settings (`GetSettings`), the
precomputed route table (`GetRouter`'s `GetRoutesRange`), and a reference
to the catalogue from which its graph is rebuilt deterministically by the
builder (§2: the codec "can also reconstruct a Router from a previously
saved table"). -/
structure TransportRouter where
  settings : RoutingSettings
  catalogue : TransportCatalogue
  routesData : RoutesInternalData
deriving DecidableEq

/-- Proto message `Point`. -/
structure PointMsg where
  x : Option ℚ
  y : Option ℚ
deriving DecidableEq

/-- Default `PointMsg` instance. -/
def PointMsg.default : PointMsg := ⟨none, none⟩

/-- Proto message `Rgb`. -/
structure RgbMsg where
  red : Option Nat
  green : Option Nat
  blue : Option Nat
deriving DecidableEq

/-- Proto message `Rgba`. -/
structure RgbaMsg where
  red : Option Nat
  green : Option Nat
  blue : Option Nat
  opacity : Option ℚ
deriving DecidableEq

/-- Proto message `Color`: a name, an Rgb or an Rgba payload
(`has_rgb` / `has_rgba` are the presence tests the decoder uses). -/
structure ColorMsg where
  name : Option String
  rgb : Option RgbMsg
  rgba : Option RgbaMsg
deriving DecidableEq

/-- Default `ColorMsg` instance. -/
def ColorMsg.default : ColorMsg := ⟨none, none, none⟩

/-- Proto message `RenderSettings`. -/
structure RenderSettingsMsg where
  width : Option ℚ
  height : Option ℚ
  padding : Option ℚ
  line_width : Option ℚ
  stop_radius : Option ℚ
  bus_label_font_size : Option Int
  bus_label_offset : Option PointMsg
  stop_label_font_size : Option Int
  stop_label_offset : Option PointMsg
  underlayer_color : Option ColorMsg
  underlayer_width : Option ℚ
  color_palette : List ColorMsg
deriving DecidableEq

/-- Default `RenderSettingsMsg` instance. -/
def RenderSettingsMsg.default : RenderSettingsMsg :=
  ⟨none, none, none, none, none, none, none, none, none, none, none, []⟩

/-- Proto message `MapRenderer`. -/
structure MapRendererMsg where
  render_settings : Option RenderSettingsMsg
deriving DecidableEq

/-- Default `MapRendererMsg` instance. -/
def MapRendererMsg.default : MapRendererMsg := ⟨none⟩

/-- Proto message `Stop`: name, coordinates and the per-stop distance map
`distance` (destination stop id to distance). -/
structure StopMsg where
  name : Option String
  lat : Option ℚ
  lng : Option ℚ
  distance : List (Nat × ℚ)
deriving DecidableEq

/-- Proto message `StopList`. -/
structure StopListMsg where
  stop : List StopMsg
deriving DecidableEq

/-- Default `StopListMsg` instance. -/
def StopListMsg.default : StopListMsg := ⟨[]⟩

/-- Proto message `Bus`. -/
structure BusMsg where
  name : Option String
  is_roundtrip : Option Bool
  stop_id : List Nat
deriving DecidableEq

/-- Proto message `BusList`. -/
structure BusListMsg where
  bus : List BusMsg
deriving DecidableEq

/-- Default `BusListMsg` instance. -/
def BusListMsg.default : BusListMsg := ⟨[]⟩

/-- Proto message `TransportCatalogue`. -/
structure TransportCatalogueMsg where
  stop_list : Option StopListMsg
  bus_list : Option BusListMsg
deriving DecidableEq

/-- Default `TransportCatalogueMsg` instance. -/
def TransportCatalogueMsg.default : TransportCatalogueMsg := ⟨none, none⟩

/-- Proto message `RoutingSettings`. -/
structure RoutingSettingsMsg where
  bus_wait_time : Option ℚ
  bus_velocity : Option ℚ
deriving DecidableEq

/-- Default `RoutingSettingsMsg` instance. -/
def RoutingSettingsMsg.default : RoutingSettingsMsg := ⟨none, none⟩

/-- Proto message `TransportRouter`: as built by
`details::Serialize(const transport_catalogue::TransportRouter&)`
(serialization.cpp:140-145), it carries exactly the routing settings and
the `Router` route table — no graph section. -/
structure TransportRouterMsg where
  routing_settings : Option RoutingSettingsMsg
  router : Option RouterMsg
deriving DecidableEq

/-- Default `TransportRouterMsg` instance. -/
def TransportRouterMsg.default : TransportRouterMsg := ⟨none, none⟩

/-- Proto message `Database`, the root of the persisted blob
(serialization.cpp:15-19). -/
structure DatabaseMsg where
  transport_catalogue : Option TransportCatalogueMsg
  map_renderer : Option MapRendererMsg
  transport_router : Option TransportRouterMsg
deriving DecidableEq

/-- A route table is square when every row has as many entries as there are
rows; `Router::build` always produces a `V × V` table. -/
abbrev SquareTable (table : RoutesInternalData) : Prop :=
  ∀ row ∈ table, row.length = table.length

/-- `details::Deserialize(const Point&)` (serialization.cpp:344-351). -/
def deserializePoint (object : PointMsg) : Point :=
  ⟨object.x.getD 0, object.y.getD 0⟩

/-- `details::Deserialize(const Rgb&)` (serialization.cpp:407-413); the
channels are narrowed back with static_cast to uint8_t. -/
def deserializeRgb (object : RgbMsg) : Rgb :=
  ⟨object.red.getD 0 % 256, object.green.getD 0 % 256, object.blue.getD 0 % 256⟩

/-- `details::Deserialize(const Rgba&)` (serialization.cpp:398-405). -/
def deserializeRgba (object : RgbaMsg) : Rgba :=
  ⟨object.red.getD 0 % 256, object.green.getD 0 % 256, object.blue.getD 0 % 256,
   object.opacity.getD 0⟩

/-- `details::Deserialize(const Color&)` (serialization.cpp:367-375):
an Rgba payload wins, then an Rgb payload, otherwise the name field. -/
def deserializeColor (object : ColorMsg) : Color :=
  match object.rgba with
  | some c => Color.rgba (deserializeRgba c)
  | none =>
    match object.rgb with
    | some c => Color.rgb (deserializeRgb c)
    | none => Color.name (object.name.getD "")

/-- `details::Deserialize(const RenderSettings&)` (serialization.cpp:199-223):
every scalar is read through its accessor (yielding the default when
absent), the offsets, underlayer color and palette entries through the
corresponding message decoders. -/
def deserializeRenderSettings (object : RenderSettingsMsg) : RenderSettings :=
  { width := object.width.getD 0
    height := object.height.getD 0
    padding := object.padding.getD 0
    line_width := object.line_width.getD 0
    stop_radius := object.stop_radius.getD 0
    bus_label_font_size := object.bus_label_font_size.getD 0
    bus_label_offset := deserializePoint (object.bus_label_offset.getD .default)
    stop_label_font_size := object.stop_label_font_size.getD 0
    stop_label_offset := deserializePoint (object.stop_label_offset.getD .default)
    underlayer_color := deserializeColor (object.underlayer_color.getD .default)
    underlayer_width := object.underlayer_width.getD 0
    color_palette := object.color_palette.map deserializeColor }

/-- `details::Deserialize(const MapRenderer&)` (serialization.cpp:136-138). -/
def deserializeMapRenderer (object : MapRendererMsg) : MapRenderer :=
  ⟨deserializeRenderSettings (object.render_settings.getD .default)⟩

/-- `details::Deserialize(const TransportCatalogue&)`
(serialization.cpp:78-128): add every stop in stream order, then register
every recorded distance (looking destination stops up by name through
their id), then add every bus with its stop references. -/
def deserializeCatalogue (object : TransportCatalogueMsg) : TransportCatalogue :=
  let stop_list := (object.stop_list.getD .default).stop
  let stops := stop_list.map (fun s =>
    Stop.mk (s.name.getD "") (s.lat.getD 0) (s.lng.getD 0))
  let distances := stop_list.bind (fun s =>
    s.distance.map (fun q =>
      ((s.name.getD "",
        ((stop_list.get? q.1).map (fun t => t.name.getD "")).getD ""), q.2)))
  let buses := (object.bus_list.getD .default).bus.map (fun b =>
    Bus.mk (b.name.getD "") (b.is_roundtrip.getD false) b.stop_id)
  ⟨stops, distances, buses⟩

/-- `details::Deserialize(const RoutingSettings&)` (serialization.cpp:234-241). -/
def deserializeRoutingSettings (object : RoutingSettingsMsg) : RoutingSettings :=
  ⟨object.bus_wait_time.getD 0, object.bus_velocity.getD 0⟩

/-- `details::Serialize(const RoutingSettings&)` (serialization.cpp:225-232). -/
def serializeRoutingSettings (routing_settings : RoutingSettings) : RoutingSettingsMsg :=
  ⟨some routing_settings.bus_wait_time, some routing_settings.bus_velocity⟩

/-- `details::Serialize(const transport_catalogue::TransportRouter&)`
(serialization.cpp:140-145): the section stores the routing settings and
the route table, nothing else. -/
def serializeTransportRouter (transport_router : TransportRouter) : TransportRouterMsg :=
  ⟨some (serializeRoutingSettings transport_router.settings),
   some (serializeRouter transport_router.routesData)⟩

/-- Modelled from the spec: the constructor
`TransportRouter(settings, router_data, catalogue)` (transport_router.h is
not under src) adopts the saved route table wholesale — §2: the codec "can
also reconstruct a Router from a previously saved table without rerunning
the precomputation" — and keeps the catalogue reference. -/
def TransportRouter.ofSaved (settings : RoutingSettings)
    (router_data : RoutesInternalData)
    (transport_catalogue : TransportCatalogue) : TransportRouter :=
  ⟨settings, transport_catalogue, router_data⟩

/-- `details::Deserialize(const TransportRouter&, const TransportCatalogue&)`
(serialization.cpp:147-155). -/
def deserializeTransportRouter (object : TransportRouterMsg)
    (transport_catalogue : TransportCatalogue) : TransportRouter :=
  let router_data := deserializeRouter (object.router.getD .default)
  TransportRouter.ofSaved
    (deserializeRoutingSettings (object.routing_settings.getD .default))
    router_data transport_catalogue

/-- `transport_catalogue_serialize::DeserializeResult`
(serialization.h, via its use at serialization.cpp:34-38). -/
structure DeserializeResult where
  transport_catalogue : TransportCatalogue
  map_renderer : MapRenderer
  transport_router : TransportRouter
deriving DecidableEq

/-- `transport_catalogue_serialize::Deserialize(istream&)`
(serialization.cpp:22-41).  The protobuf framing step
`ParseFromIstream` is abstracted as the `Option DatabaseMsg` input: `none`
is a stream that fails to parse, in which case the function returns
`nullopt`; otherwise all three sections are decoded and returned together. -/
def Deserialize (input : Option DatabaseMsg) : Option DeserializeResult :=
  match input with
  | none => none
  | some database =>
    let transport_catalogue :=
      deserializeCatalogue (database.transport_catalogue.getD .default)
    let transport_router :=
      deserializeTransportRouter (database.transport_router.getD .default)
        transport_catalogue
    let map_renderer := deserializeMapRenderer (database.map_renderer.getD .default)
    some ⟨transport_catalogue, map_renderer, transport_router⟩

/-- Modelled from the spec (§5, §7): the caller-side replacement protocol —
a successful decode fully replaces the previously loaded state, a failed
decode leaves the prior state untouched. -/
def adoptDecoded (prior : DeserializeResult) (input : Option DatabaseMsg) :
    DeserializeResult :=
  match Deserialize input with
  | none => prior
  | some result => result

/-- graph::Edge (graph.h, not under src; field names follow the C++
`from` / `to` / `weight`, with a trailing underscore where Lean reserves
the word). -/
structure Edge where
  from_ : Nat
  to_ : Nat
  weight : ℚ
deriving DecidableEq

/-- Modelled from the spec (§3, §4.1): graph.h is not under src.  The
directed weighted graph stores its vertex count and its edges densely
indexed by insertion order. -/
structure Graph where
  vertexCount : Nat
  edges : List Edge
deriving DecidableEq

/-- Modelled from the spec (§4.1): `Graph(vertex_count)` pre-allocates the
vertex ids `[0, count)` with no edges. -/
def Graph.init (vertex_count : Nat) : Graph := ⟨vertex_count, []⟩

/-- Modelled from the spec (§4.1): `add_edge` appends the edge and assigns
the next dense edge id; it fails with InvalidVertex when an endpoint is out
of range and with InvalidWeight when the weight is negative. -/
def Graph.addEdge (g : Graph) (e : Edge) : Option Graph :=
  if e.from_ < g.vertexCount ∧ e.to_ < g.vertexCount ∧ 0 ≤ e.weight then
    some ⟨g.vertexCount, g.edges ++ [e]⟩
  else none

/-- A graph is well formed when every stored edge satisfies the `add_edge`
contract under which it was admitted. -/
abbrev Graph.WellFormed (g : Graph) : Prop :=
  ∀ e ∈ g.edges, e.from_ < g.vertexCount ∧ e.to_ < g.vertexCount ∧ 0 ≤ e.weight

/-- Proto message `Edge`. -/
structure EdgeMsg where
  from_ : Option Nat
  to_ : Option Nat
  weight : Option ℚ
deriving DecidableEq

/-- Proto message `Graph`. -/
structure GraphMsg where
  vertex_count : Option Nat
  edge : List EdgeMsg
deriving DecidableEq

/-- `details::Serialize(const TransportRouter::Graph&)`
(serialization.cpp:302-317): the vertex count, then every edge
`(from, to, weight)` for edge ids 0, 1, …, GetEdgeCount()-1 — i.e. the
edge list in increasing edge-id (insertion) order. -/
def serializeGraph (graph : Graph) : GraphMsg :=
  ⟨some graph.vertexCount,
   graph.edges.map (fun e => ⟨some e.from_, some e.to_, some e.weight⟩)⟩

/-- `details::Deserialize(const Graph&)` (serialization.cpp:319-333):
construct `Graph(vertex_count)` and re-add every encoded edge in stream
order. -/
def deserializeGraph (object : GraphMsg) : Option Graph :=
  object.edge.foldl
    (fun acc edge => acc.bind (fun g =>
      g.addEdge ⟨edge.from_.getD 0, edge.to_.getD 0, edge.weight.getD 0⟩))
    (some (Graph.init (object.vertex_count.getD 0)))

/-- `renderer::EPSILON` (map_renderer.h:38). -/
def EPSILON : ℚ := 1 / 1000000

/-- `renderer::IsZero` (map_renderer.h:39-41). -/
def IsZero (value : ℚ) : Bool := |value| < EPSILON

/-- geo::Coordinates (geo.h, not under src; a latitude/longitude pair as
used by the projector and the renderer). -/
structure Coordinates where
  lat : ℚ
  lng : ℚ
deriving DecidableEq

/-- `renderer::SphereProjector`'s stored state (map_renderer.h:103-107),
with the in-class initializers of the last three members. -/
structure SphereProjector where
  padding_ : ℚ
  min_lon_ : ℚ := 0
  max_lat_ : ℚ := 0
  zoom_coeff_ : ℚ := 0
deriving DecidableEq

/-- Minimum longitude over the nonempty point range (minmax_element with
the lng comparator, map_renderer.h:57-61). -/
def minLon (p : Coordinates) (ps : List Coordinates) : ℚ :=
  ps.foldl (fun acc c => min acc c.lng) p.lng

/-- Maximum longitude over the nonempty point range. -/
def maxLon (p : Coordinates) (ps : List Coordinates) : ℚ :=
  ps.foldl (fun acc c => max acc c.lng) p.lng

/-- Minimum latitude over the nonempty point range (map_renderer.h:64-68). -/
def minLat (p : Coordinates) (ps : List Coordinates) : ℚ :=
  ps.foldl (fun acc c => min acc c.lat) p.lat

/-- Maximum latitude over the nonempty point range. -/
def maxLat (p : Coordinates) (ps : List Coordinates) : ℚ :=
  ps.foldl (fun acc c => max acc c.lat) p.lat

/-- The `width_zoom` computation (map_renderer.h:71-74): division by the
longitude spread happens only under the `IsZero` guard. -/
def widthZoom (max_width padding min_lon max_lon : ℚ) : Option ℚ :=
  if ¬ IsZero (max_lon - min_lon) then
    some ((max_width - 2 * padding) / (max_lon - min_lon))
  else none

/-- The `height_zoom` computation (map_renderer.h:77-80). -/
def heightZoom (max_height padding min_lat max_lat : ℚ) : Option ℚ :=
  if ¬ IsZero (max_lat - min_lat) then
    some ((max_height - 2 * padding) / (max_lat - min_lat))
  else none

/-- The `SphereProjector` constructor (map_renderer.h:46-93): an empty
range keeps the member defaults; otherwise the longitude/latitude extremes
are computed, the two optional zoom factors are derived under their guards
and combined (minimum when both exist, the present one when only one
exists, otherwise the zoom coefficient stays 0). -/
def mkSphereProjector (points : List Coordinates)
    (max_width max_height padding : ℚ) : SphereProjector :=
  match points with
  | [] => { padding_ := padding }
  | p :: ps =>
    let min_lon := minLon p ps
    let max_lon := maxLon p ps
    let min_lat := minLat p ps
    let max_lat := maxLat p ps
    let width_zoom := widthZoom max_width padding min_lon max_lon
    let height_zoom := heightZoom max_height padding min_lat max_lat
    let zoom_coeff :=
      match width_zoom, height_zoom with
      | some w, some h => min w h
      | some w, none => w
      | none, some h => h
      | none, none => 0
    { padding_ := padding, min_lon_ := min_lon, max_lat_ := max_lat,
      zoom_coeff_ := zoom_coeff }

/-- `SphereProjector::operator()` (map_renderer.h:96-101). -/
def SphereProjector.project (sp : SphereProjector) (coords : Coordinates) : Point :=
  ⟨(coords.lng - sp.min_lon_) * sp.zoom_coeff_ + sp.padding_,
   (sp.max_lat_ - coords.lat) * sp.zoom_coeff_ + sp.padding_⟩

/-- The color chosen for the n-th rendered bus by `MapRenderer::RenderRoutes`
(map_renderer.h:170-175): `color_palette[index++ % nums]` with `nums` the
palette size.  `List.get?` models the subscript: `none` is an out-of-range
access (with an empty palette the C++ index computation `index % 0` is
undefined behavior). -/
def assignedColor (color_palette : List Color) (n : Nat) : Option Color :=
  color_palette.get? (n % color_palette.length)

/-- The sequence of colors `RenderRoutes` assigns to the buses of the
rendered range, in iteration order. -/
def renderRoutesColors (bus_count : Nat) (color_palette : List Color) :
    List (Option Color) :=
  (List.range bus_count).map (fun index => assignedColor color_palette index)

/-- Concrete 2×2 route table for the round-trip law. -/
def witnessTable : RoutesInternalData :=
  [[some ⟨3, some 0⟩, none], [none, some ⟨7, none⟩]]

/-- A `Router` message with one row of two entries (row count 1, row length
2 — not square, so it matches no vertex count) whose present entry carries
predecessor edge id 1000000 (larger than any edge count of a small graph). -/
def badRouterMsg : RouterMsg :=
  ⟨[⟨[⟨some ⟨some 5, some ⟨some 1000000⟩⟩⟩, ⟨none⟩]⟩]⟩

/-- A parsed `Database` whose router section is `badRouterMsg`. -/
def badDatabase : DatabaseMsg :=
  ⟨none, none, some ⟨none, some badRouterMsg⟩⟩

/-- A one-stop catalogue. -/
def catalogueA : TransportCatalogue := ⟨[⟨"A", 1, 2⟩], [], []⟩

/-- A two-stop catalogue with one recorded distance. -/
def catalogueB : TransportCatalogue :=
  ⟨[⟨"A", 1, 2⟩, ⟨"B", 3, 4⟩], [(("A", "B"), 1000)], []⟩

/-- A router over `catalogueA`. -/
def routerA : TransportRouter := ⟨⟨6, 40⟩, catalogueA, witnessTable⟩

/-- A router with the same settings and route table but over `catalogueB`
(hence, by the deterministic builder, a different graph). -/
def routerB : TransportRouter := ⟨⟨6, 40⟩, catalogueB, witnessTable⟩

/-- A concrete well-formed graph: two vertices, two edges. -/
def witnessGraph : Graph := ⟨2, [⟨0, 1, 31⟩, ⟨1, 0, 31⟩]⟩

/-- A concrete previously loaded state. -/
def samplePrior : DeserializeResult :=
  ⟨⟨[], [], []⟩, ⟨{}⟩, ⟨⟨6, 40⟩, ⟨[], [], []⟩, []⟩⟩

theorem deserializeRoute_serializeRoute (e : Option RouteInternalData) :
    deserializeRoute (serializeRoute e) = e := by
  cases e with
  | none => rfl
  | some r =>
    cases r with
    | mk w p =>
      cases p <;> rfl

theorem deserializeRow_round (row : List (Option RouteInternalData)) :
    (List.range row.length).map (fun to_id =>
      ((row.map serializeRoute).get? to_id).bind deserializeRoute) = row := by
  apply List.ext_get?
  intro j
  rw [List.get?_map]
  by_cases hj : j < row.length
  · rw [List.get?_range hj]
    simp only [Option.map_some']
    rw [List.get?_map, List.get?_eq_get hj]
    simp [deserializeRoute_serializeRoute]
  · rw [List.get?_eq_none.mpr (by simpa using Nat.le_of_not_lt hj),
      List.get?_eq_none.mpr (Nat.le_of_not_lt hj)]
    rfl

/-- Claim C1: decoding the encoding of a router route table reproduces it
exactly — same number of rows, and for every ordered pair the entry's
presence, weight and optional predecessor edge id are preserved (stated as
equality of the tables; router tables are square by construction). -/
theorem router_table_round_trip (t : RoutesInternalData) (h : SquareTable t) :
    deserializeRouter (serializeRouter t) = t := by
  unfold serializeRouter deserializeRouter
  simp only [List.length_map, List.map_map, Function.comp]
  conv_rhs => rw [← List.map_id t]
  apply List.map_congr_left
  intro row hrow
  show (List.range t.length).map (fun to_id =>
      ((row.map serializeRoute).get? to_id).bind deserializeRoute) = row
  rw [← h row hrow]
  exact deserializeRow_round row

/-- Witness for C1 at a concrete square table. -/
theorem router_table_round_trip_witness :
    SquareTable witnessTable
    ∧ deserializeRouter (serializeRouter witnessTable) = witnessTable :=
  ⟨by decide, router_table_round_trip witnessTable (by decide)⟩

/-- Claim C2: the per-entry encoding distinguishes an absent entry from a
present entry with absent predecessor by the optional `data` wrapper rather
than a sentinel weight (the absent encoding carries no weight field at
all), and decoding maps each encoding back without conflating the two. -/
theorem entry_encoding_distinguishes (e : Option RouteInternalData) (w : ℚ) :
    deserializeRoute (serializeRoute e) = e
    ∧ (serializeRoute none).data = none
    ∧ serializeRoute (some ⟨w, none⟩) = ⟨some ⟨some w, none⟩⟩
    ∧ serializeRoute (some ⟨w, none⟩) ≠ serializeRoute none := by
  refine ⟨deserializeRoute_serializeRoute e, rfl, rfl, ?_⟩
  intro hcontra
  exact Option.noConfusion (congrArg RouteMsg.data hcontra)

/-- Witness for C2 at a concrete entry. -/
theorem entry_encoding_distinguishes_witness :
    deserializeRoute (serializeRoute (some ⟨9, none⟩)) = some ⟨9, none⟩ :=
  (entry_encoding_distinguishes (some ⟨9, none⟩) 9).1

/-- Counterexample to C3: a parsed stream whose route table is not square
(one row of two entries, so its row count matches no vertex count) and
whose present entry names predecessor edge id 1000000 is decoded to a
value — `details::Deserialize(const Router&)` performs no structural
validation and the top-level decode accepts the database. -/
theorem corrupt_router_accepted :
    deserializeRouter badRouterMsg = [[some ⟨5, some 1000000⟩]]
    ∧ Deserialize (some badDatabase) ≠ none := by
  refine ⟨by decide, ?_⟩
  intro hcontra
  exact Option.noConfusion hcontra

/-- Claim C3 amended: the only rejected streams are those that fail the
protobuf framing parse (`ParseFromIstream`), in which case `nullopt` is
returned; every successfully parsed database is decoded to a value — there
is no `CorruptData` check of row counts or predecessor edge ids. -/
theorem framing_only_rejection :
    Deserialize none = none
    ∧ ∀ database, ∃ result, Deserialize (some database) = some result :=
  ⟨rfl, fun _ => ⟨_, rfl⟩⟩

/-- Counterexample to C4: two routers with the same settings and route
table but different catalogues (and hence, by the deterministic builder,
different graphs) serialize to identical `TransportRouter` sections, so the
graph is not contained in, nor restorable from, the serialized section. -/
theorem router_blob_graph_free :
    serializeTransportRouter routerA = serializeTransportRouter routerB
    ∧ routerA.catalogue ≠ routerB.catalogue :=
  ⟨rfl, by decide⟩

/-- Claim C4 amended: the serialized `TransportRouter` section consists of
exactly the routing settings and the full route table; it is independent of
everything else in the router (in particular of the graph, which is rebuilt
from the separately stored catalogue on deserialization). -/
theorem serializeTransportRouter_settings_and_table (s : RoutingSettings)
    (t : RoutesInternalData) (c1 c2 : TransportCatalogue) :
    serializeTransportRouter ⟨s, c1, t⟩ = serializeTransportRouter ⟨s, c2, t⟩
    ∧ serializeTransportRouter ⟨s, c1, t⟩
        = ⟨some (serializeRoutingSettings s), some (serializeRouter t)⟩ :=
  ⟨rfl, rfl⟩

/-- Claim C5: decoding is all-or-nothing — a failed decode happens only for
an unparseable stream, returns no result and leaves the prior state
untouched, while a successful decode returns a fully constructed
replacement for all three components, each determined by the stream. -/
theorem decode_all_or_nothing (prior : DeserializeResult)
    (input : Option DatabaseMsg) :
    (Deserialize input = none → adoptDecoded prior input = prior ∧ input = none)
    ∧ (∀ result, Deserialize input = some result →
        adoptDecoded prior input = result)
    ∧ (∀ database, input = some database →
        Deserialize input = some
          ⟨deserializeCatalogue (database.transport_catalogue.getD .default),
           deserializeMapRenderer (database.map_renderer.getD .default),
           deserializeTransportRouter (database.transport_router.getD .default)
             (deserializeCatalogue (database.transport_catalogue.getD .default))⟩) := by
  refine ⟨?_, ?_, ?_⟩
  · intro h
    cases input with
    | none => exact ⟨rfl, rfl⟩
    | some database => exact Option.noConfusion h
  · intro result h
    simp [adoptDecoded, h]
  · rintro database rfl
    rfl

/-- Witness for C5: a failed decode leaves the prior state unchanged. -/
theorem decode_all_or_nothing_witness :
    adoptDecoded samplePrior none = samplePrior :=
  ((decode_all_or_nothing samplePrior none).1 rfl).1

/-- Claim C6: deserializing a `TransportRouter` builds it directly from the
decoded routing settings and the saved route table together with the
already-deserialized catalogue; the resulting table is the decoded one
verbatim (independent of the catalogue), so the all-pairs precomputation is
not rerun. -/
theorem router_decode_uses_saved_table (object : TransportRouterMsg)
    (transport_catalogue transport_catalogue2 : TransportCatalogue) :
    deserializeTransportRouter object transport_catalogue
      = TransportRouter.ofSaved
          (deserializeRoutingSettings (object.routing_settings.getD .default))
          (deserializeRouter (object.router.getD .default))
          transport_catalogue
    ∧ (deserializeTransportRouter object transport_catalogue).routesData
        = deserializeRouter (object.router.getD .default)
    ∧ (deserializeTransportRouter object transport_catalogue).routesData
        = (deserializeTransportRouter object transport_catalogue2).routesData :=
  ⟨rfl, rfl, rfl⟩

theorem deserializeGraph_go (es : List Edge) (g : Graph)
    (h : ∀ e ∈ es, e.from_ < g.vertexCount ∧ e.to_ < g.vertexCount ∧ 0 ≤ e.weight) :
    (es.map (fun e => (⟨some e.from_, some e.to_, some e.weight⟩ : EdgeMsg))).foldl
      (fun acc edge => acc.bind (fun g2 =>
        g2.addEdge ⟨edge.from_.getD 0, edge.to_.getD 0, edge.weight.getD 0⟩))
      (some g) = some ⟨g.vertexCount, g.edges ++ es⟩ := by
  induction es generalizing g with
  | nil => simp
  | cons e es ih =>
    simp only [List.map_cons, List.foldl_cons, Option.some_bind]
    have he := h e (by simp)
    have hstep : Graph.addEdge g ⟨e.from_, e.to_, e.weight⟩
        = some ⟨g.vertexCount, g.edges ++ [e]⟩ := by
      simp [Graph.addEdge, he.1, he.2.1, he.2.2]
    simp only [Option.getD_some] at *
    rw [hstep]
    have hrest : ∀ e2 ∈ es, e2.from_ < (⟨g.vertexCount, g.edges ++ [e]⟩ : Graph).vertexCount
        ∧ e2.to_ < (⟨g.vertexCount, g.edges ++ [e]⟩ : Graph).vertexCount
        ∧ 0 ≤ e2.weight := by
      intro e2 he2
      exact h e2 (by simp [he2])
    rw [ih ⟨g.vertexCount, g.edges ++ [e]⟩ hrest]
    simp

/-- Claim C7: serializing a graph writes its vertex count and its edges in
increasing edge-id order, and deserializing re-adds them in that order to a
graph constructed with that vertex count, reproducing the graph exactly
(same vertex count, same edge count, same `(from, to, weight)` triple at
every edge id). -/
theorem graph_round_trip (g : Graph) (h : Graph.WellFormed g) :
    deserializeGraph (serializeGraph g) = some g := by
  unfold deserializeGraph serializeGraph
  simp only [Option.getD_some]
  rw [deserializeGraph_go g.edges (Graph.init g.vertexCount) (by simpa [Graph.init] using h)]
  simp [Graph.init]

/-- Witness for C7 at a concrete well-formed graph. -/
theorem graph_round_trip_witness :
    Graph.WellFormed witnessGraph
    ∧ deserializeGraph (serializeGraph witnessGraph) = some witnessGraph :=
  ⟨by decide, graph_round_trip witnessGraph (by decide)⟩

/-- Counterexample to C8: a stream whose present `RouteData` payload lacks
the `weight` field is accepted and the weight silently becomes the protobuf
default 0; likewise an entirely empty `RenderSettings` message decodes to
the all-defaults settings instead of being rejected. -/
theorem missing_scalars_defaulted :
    deserializeRoute ⟨some ⟨none, none⟩⟩ = some ⟨0, none⟩
    ∧ deserializeRenderSettings RenderSettingsMsg.default = ({} : RenderSettings)
    ∧ RenderSettingsMsg.default.width = none :=
  ⟨rfl, rfl, rfl⟩

/-- Claim C8 amended: presence is checked only for message-typed fields
(`has_data`, `has_prev_edge`, the color payloads); scalar fields are read
through accessors that silently substitute the protobuf default when the
field is missing, and no decoder has a rejection path for a missing field. -/
theorem presence_checks_message_fields_only (rm : RouteMsg)
    (m : RenderSettingsMsg) :
    (deserializeRoute rm = none ↔ rm.data = none)
    ∧ (∀ d, rm.data = some d →
        deserializeRoute rm
          = some ⟨d.weight.getD 0, d.prev_edge.map (fun e => e.id.getD 0)⟩)
    ∧ (m.width = none → (deserializeRenderSettings m).width = 0) := by
  refine ⟨?_, ?_, ?_⟩
  · simp [deserializeRoute]
  · intro d hd
    simp [deserializeRoute, hd]
  · intro hw
    simp [deserializeRenderSettings, hw]

/-- Witness for C8's amended claim at concrete messages. -/
theorem presence_checks_witness :
    deserializeRoute ⟨none⟩ = none
    ∧ (deserializeRenderSettings RenderSettingsMsg.default).width = 0 :=
  ⟨(presence_checks_message_fields_only ⟨none⟩ RenderSettingsMsg.default).1.mpr rfl,
   (presence_checks_message_fields_only ⟨none⟩ RenderSettingsMsg.default).2.2 rfl⟩

/-- Claim C9: the projector divides by a coordinate spread only under the
`IsZero` guard, which guarantees the spread's absolute value is at least
EPSILON (hence nonzero); with an empty range, or when both spreads are
below EPSILON, the zoom coefficient stays 0 and every coordinate projects
to `(padding, padding)`. -/
theorem sphere_projector_guarded (points : List Coordinates)
    (mw mh pad : ℚ) :
    (∀ a b z, widthZoom mw pad a b = some z → EPSILON ≤ |b - a| ∧ b - a ≠ 0)
    ∧ (∀ a b z, heightZoom mh pad a b = some z → EPSILON ≤ |b - a| ∧ b - a ≠ 0)
    ∧ (points = [] →
        (mkSphereProjector points mw mh pad).zoom_coeff_ = 0
        ∧ ∀ c, (mkSphereProjector points mw mh pad).project c = ⟨pad, pad⟩)
    ∧ (∀ p ps, points = p :: ps →
        IsZero (maxLon p ps - minLon p ps) = true →
        IsZero (maxLat p ps - minLat p ps) = true →
        (mkSphereProjector points mw mh pad).zoom_coeff_ = 0
        ∧ ∀ c, (mkSphereProjector points mw mh pad).project c = ⟨pad, pad⟩) := by
  have hspread : ∀ v : ℚ, ¬ IsZero v = true → EPSILON ≤ |v| ∧ v ≠ 0 := by
    intro v hv
    simp only [IsZero, decide_eq_true_eq] at hv
    have hle : EPSILON ≤ |v| := not_lt.mp hv
    refine ⟨hle, ?_⟩
    intro hv0
    rw [hv0] at hle
    norm_num [EPSILON] at hle
  refine ⟨?_, ?_, ?_, ?_⟩
  · intro a b z hz
    unfold widthZoom at hz
    by_cases hc : ¬ IsZero (b - a) = true
    · exact hspread _ hc
    · simp [hc] at hz
  · intro a b z hz
    unfold heightZoom at hz
    by_cases hc : ¬ IsZero (b - a) = true
    · exact hspread _ hc
    · simp [hc] at hz
  · rintro rfl
    refine ⟨rfl, ?_⟩
    intro c
    show Point.mk ((c.lng - 0) * 0 + pad) ((0 - c.lat) * 0 + pad) = ⟨pad, pad⟩
    norm_num
  · rintro p ps rfl h1 h2
    have hw : widthZoom mw pad (minLon p ps) (maxLon p ps) = none := by
      simp [widthZoom, h1]
    have hh : heightZoom mh pad (minLat p ps) (maxLat p ps) = none := by
      simp [heightZoom, h2]
    have hmk : mkSphereProjector (p :: ps) mw mh pad
        = { padding_ := pad, min_lon_ := minLon p ps,
            max_lat_ := maxLat p ps, zoom_coeff_ := 0 } := by
      unfold mkSphereProjector
      dsimp only
      rw [hw, hh]
    refine ⟨by rw [hmk], ?_⟩
    intro c
    rw [hmk]
    show Point.mk ((c.lng - minLon p ps) * 0 + pad)
        ((maxLat p ps - c.lat) * 0 + pad) = ⟨pad, pad⟩
    norm_num

/-- Witness for C9: the empty range projects everything to the padding
corner with zero zoom. -/
theorem sphere_projector_guarded_witness :
    (mkSphereProjector [] 100 100 3).zoom_coeff_ = 0
    ∧ (mkSphereProjector [] 100 100 3).project ⟨5, 7⟩ = ⟨3, 3⟩ := by
  have h := sphere_projector_guarded [] 100 100 3
  exact ⟨(h.2.2.1 rfl).1, (h.2.2.1 rfl).2 ⟨5, 7⟩⟩

/-- Claim C10: `RenderRoutes` gives the n-th bus (0-based iteration order)
the color at index `n mod palette size`; that index is in range for every n
exactly when the palette is nonempty, and with an empty palette the lookup
is out of range (undefined behavior in the C++ modulo-by-zero index
computation) for any bus at all. -/
theorem render_routes_palette_indexing (color_palette : List Color)
    (bus_count n : Nat) :
    (∀ i, i < bus_count →
      (renderRoutesColors bus_count color_palette).get? i
        = some (assignedColor color_palette i))
    ∧ (color_palette ≠ [] →
        n % color_palette.length < color_palette.length
        ∧ ∃ c, assignedColor color_palette n = some c)
    ∧ (color_palette = [] → assignedColor color_palette n = none) := by
  refine ⟨?_, ?_, ?_⟩
  · intro i hi
    rw [renderRoutesColors, List.get?_map, List.get?_range hi]
    rfl
  · intro hne
    have hpos : 0 < color_palette.length := List.length_pos.mpr hne
    have hlt : n % color_palette.length < color_palette.length :=
      Nat.mod_lt _ hpos
    exact ⟨hlt, ⟨_, List.get?_eq_get hlt⟩⟩
  · rintro rfl
    rfl

/-- Witness for C10 at a two-color palette. -/
theorem render_routes_palette_indexing_witness :
    5 % [Color.name "red", Color.name "blue"].length
      < [Color.name "red", Color.name "blue"].length
    ∧ ∃ c, assignedColor [Color.name "red", Color.name "blue"] 5 = some c :=
  (render_routes_palette_indexing [Color.name "red", Color.name "blue"] 0 5).2.1
    (by decide)

end Transport
